import Mathlib

set_option maxRecDepth 100000

/-!
Verification of the inventory/order core of the Chingon-Cocteles inventory
dashboard (`app.py`, `firebase_utils.py`, `gemini_utils.py`) against its
natural-language specification.

The Python code is shallowly embedded: Firestore documents become
association lists of field/value pairs, machine integers become `Int`/`Nat`,
exceptions become `Except`, and wall-clock timestamps become explicit `Nat`
parameters.  Each definition mirrors one function of the source, keeping its
name where Lean allows it.
-/

namespace ChingonInventario

/-! ## Python-level values and dictionaries

A Firestore document (and every Python `dict` the embedded code handles) is
modelled as an association list of field names to values.  Only the value
shapes the embedded code inspects are distinguished: integers, strings,
`None`, and `datetime` values.  A `datetime` is modelled as the number of
ticks since `datetime.min` (Python datetimes are bounded below by
`datetime.min`, which therefore maps to `0`). -/

inductive PyVal where
  | int (n : Int)
  | str (s : String)
  | dt (t : Nat)
  | vnone
  deriving DecidableEq, Repr

abbrev Doc := List (String × PyVal)

/-- `d[k] = v` / last-write-wins field update: replaces the binding of `k`
if present, otherwise appends it. -/
def dictSet (d : Doc) (k : String) (v : PyVal) : Doc :=
  if d.any (fun kv => kv.1 == k) then
    d.map (fun kv => if kv.1 == k then (k, v) else kv)
  else
    d ++ [(k, v)]

/-- Python `d.get(k)`: `None` when the key is absent. -/
def dictGet (d : Doc) (k : String) : Option PyVal :=
  (d.find? (fun kv => kv.1 == k)).map (fun kv => kv.2)

/-- Python `dict(d, **data)` / Firestore `set(data, merge=True)`:
the fields of `data` overwrite those of `d`, fields absent from `data`
are preserved. -/
def mergeDoc (d data : Doc) : Doc :=
  data.foldl (fun acc kv => dictSet acc kv.1 kv.2) d

/-! ## `firestore_retry` (firebase_utils.py, lines 14–32)

The decorator wraps a Firestore operation in a retry loop:

```python
def wrapper(*args, **kwargs):
    max_retries = 3
    delay = 1
    for attempt in range(max_retries):
        try:
            return func(*args, **kwargs)
        except Exception as e:
            logger.warning(...)
            time.sleep(delay)
            delay *= 2
    logger.error(...)
    # Re-raise the last exception after all retries have failed
    raise
```

The wrapped operation is modelled as a function from the attempt index to
its outcome on that attempt.  One Python 3 semantic detail matters: the
final bare `raise` sits *outside* the `except` block, and CPython clears
the "currently handled exception" when an `except` block exits, so with no
enclosing handler the bare `raise` does not re-raise the stored exception —
it raises `RuntimeError: No active exception to re-raise`.  The exception
type therefore distinguishes the operation's own errors from that
`RuntimeError`. -/

inductive PyExn (E : Type) where
  | orig (e : E)
  | runtimeNoActiveException
  deriving DecidableEq, Repr

structure RetryOutcome (E A : Type) where
  result : Except (PyExn E) A
  calls : Nat
  totalSleep : Nat

/-- The `for attempt in range(...)` loop of the wrapper.  `fuel` counts the
remaining attempts, `delay` is the current backoff delay, `calls` the number
of invocations of `func` so far, `slept` the accumulated `time.sleep`
duration.  On each failure the wrapper sleeps `delay` and doubles it; when
the loop exhausts its attempts the bare `raise` produces
`runtimeNoActiveException` (see the module comment above). -/
def firestore_retry_loop (op : Nat → Except E A) :
    Nat → Nat → Nat → Nat → RetryOutcome E A
  | 0, _, calls, slept => ⟨.error .runtimeNoActiveException, calls, slept⟩
  | fuel + 1, delay, calls, slept =>
    match op calls with
    | .ok v => ⟨.ok v, calls + 1, slept⟩
    | .error _ => firestore_retry_loop op fuel (delay * 2) (calls + 1) (slept + delay)

/-- `firestore_retry` with its hard-coded configuration
`max_retries = 3`, initial `delay = 1`. -/
def firestore_retry (op : Nat → Except E A) : RetryOutcome E A :=
  firestore_retry_loop op 3 1 0 0

/-! ## The inventory collection and `save_inventory_item`
(firebase_utils.py, lines 77–102)

Each document of the `inventory` collection carries its field map plus its
`history` sub-collection, an append-only list.  `save_inventory_item` does

```python
doc_ref.set(data, merge=True)
history_type = "Stock Inicial" if is_new else "Ajuste Manual"
details = details or ("Artículo creado en el sistema." if is_new
                      else "Artículo actualizado manualmente.")
history_data = {"timestamp": ..., "type": history_type,
                "quantity_change": data.get('quantity'), "details": details}
doc_ref.collection('history').add(history_data)
```

Note that the `quantity_change` field of the appended entry is
`data.get('quantity')` — the absolute quantity carried by `data` (or `None`
when `data` has no `quantity` key), not a delta.  The wall-clock timestamp
`datetime.now(timezone.utc)` is passed in as an explicit `now` parameter. -/

structure HistEntry where
  timestamp : Nat
  htype : String
  quantity_change : Option PyVal
  details : String
  deriving DecidableEq, Repr

structure InvDoc where
  fields : Doc
  history : List HistEntry
  deriving DecidableEq, Repr

abbrev InventoryDB := List (String × InvDoc)

def dbLookup (db : InventoryDB) (id : String) : Option InvDoc :=
  (db.find? (fun kv => kv.1 == id)).map (fun kv => kv.2)

/-- `document(id)` followed by a write: updates the document if it exists,
creates it otherwise. -/
def dbUpdate (db : InventoryDB) (id : String) (doc : InvDoc) : InventoryDB :=
  if db.any (fun kv => kv.1 == id) then
    db.map (fun kv => if kv.1 == id then (id, doc) else kv)
  else
    db ++ [(id, doc)]

/-- Python `a or b` on an optional string: `None` and `""` are falsy. -/
def pyOrStr (v : Option String) (default : String) : String :=
  match v with
  | Option.none => default
  | some s => if s = "" then default else s

/-- `FirebaseManager.save_inventory_item` (firebase_utils.py 77–88). -/
def save_inventory_item (db : InventoryDB) (data : Doc) (custom_id : String)
    (is_new : Bool) (details : Option String) (now : Nat) : InventoryDB :=
  let old := (dbLookup db custom_id).getD ⟨[], []⟩
  let fields := mergeDoc old.fields data
  let history_type := if is_new then "Stock Inicial" else "Ajuste Manual"
  let details' := pyOrStr details
    (if is_new then "Artículo creado en el sistema." else "Artículo actualizado manualmente.")
  let history_data : HistEntry :=
    { timestamp := now, htype := history_type,
      quantity_change := dictGet data "quantity", details := details' }
  dbUpdate db custom_id { fields := fields, history := old.history ++ [history_data] }

/-- The integer contribution of one history entry to the ledger sum of the
spec's invariant (`sum(history.quantity_change)`); a `None` or non-integer
`quantity_change` contributes nothing. -/
def entryChange (e : HistEntry) : Int :=
  match e.quantity_change with
  | some (PyVal.int n) => n
  | _ => 0

/-- `sum(history.quantity_change)` over an item's ledger. -/
def ledgerSum (d : InvDoc) : Int :=
  (d.history.map entryChange).sum

/-- The item's stored `quantity` field. -/
def itemQuantity (d : InvDoc) : Option PyVal :=
  dictGet d.fields "quantity"

/-! ## `get_all_inventory_items` (firebase_utils.py, lines 98–102)

```python
docs = self.db.collection('inventory').stream()
items = [dict(item.to_dict(), **{'id': item.id}) for item in docs]
return sorted(items, key=lambda x: x.get('name', '').lower())
```
-/

/-- `dict(item.to_dict(), **{'id': item.id})`: the document's fields with the
store key written into `id` (overwriting any stored `id` field). -/
def attach_id (kv : String × InvDoc) : Doc :=
  dictSet kv.2.fields "id" (PyVal.str kv.1)

/-- The sort key `x.get('name', '').lower()`.  When the `name` field is
absent the default `''` applies.  On a *non-string* `name` value CPython
would raise `AttributeError`; this total model returns `""` there, and the
theorems about listing therefore carry a well-formedness hypothesis
restricting to stores whose `name` fields, when present, are strings. -/
def pyNameKey (x : Doc) : String :=
  match dictGet x "name" with
  | some (PyVal.str s) => s.toLower
  | _ => ""

/-- Every `name` field present in the store holds a string — the domain on
which `pyNameKey` agrees with the Python key function. -/
def wellFormedNames (db : InventoryDB) : Bool :=
  db.all (fun kv =>
    match dictGet kv.2.fields "name" with
    | some (PyVal.str _) => true
    | Option.none => true
    | _ => false)

/-- `FirebaseManager.get_all_inventory_items` (firebase_utils.py 98–102).
Python's `sorted` is a stable mergesort, modelled by `List.mergeSort`. -/
def get_all_inventory_items (db : InventoryDB) : List Doc :=
  (db.map attach_id).mergeSort (fun a b => decide (pyNameKey a ≤ pyNameKey b))

/-! ## `get_orders` (firebase_utils.py, lines 107–122)

```python
query = self.db.collection('orders')
if status:
    query = query.where(filter=firestore.FieldFilter('status', '==', status))
docs = query.stream()
orders = []
for doc in docs:
    order = doc.to_dict(); order['id'] = doc.id
    ts = order.get('timestamp')
    if isinstance(ts, datetime):
        order['timestamp_obj'] = ts.replace(tzinfo=timezone.utc) if ts.tzinfo is None else ts
    else:
        order['timestamp_obj'] = datetime.min.replace(tzinfo=timezone.utc)
    orders.append(order)
return sorted(orders, key=lambda x: x['timestamp_obj'], reverse=True)
```

A `datetime` is a `PyVal.dt` tick count with `datetime.min ↦ 0`; the
`tzinfo` normalisation does not change the instant, so it is invisible in
the tick model. -/

abbrev OrdersDB := List (String × Doc)

/-- The `timestamp_obj` computed for one stored order document: the
timestamp's ticks when the field holds a `datetime`, `datetime.min` (= 0,
the least tick count) otherwise. -/
def ts_key (d : Doc) : Nat :=
  match dictGet d "timestamp" with
  | some (PyVal.dt t) => t
  | _ => 0

/-- One iteration of the `for doc in docs` loop: write the store key into
`id` and the computed `datetime` into `timestamp_obj`. -/
def order_with_meta (kv : String × Doc) : Doc :=
  dictSet (dictSet kv.2 "id" (PyVal.str kv.1)) "timestamp_obj" (PyVal.dt (ts_key kv.2))

/-- The `if status:` filter (Python truthiness: `None` and `""` skip the
`where` clause). -/
def orders_filter (db : OrdersDB) (status : Option String) : OrdersDB :=
  match status with
  | Option.none => db
  | some s =>
    if s = "" then db
    else db.filter (fun kv => dictGet kv.2 "status" == some (PyVal.str s))

/-- The sort key read back from a produced order record. -/
def ob_key (x : Doc) : Nat :=
  match dictGet x "timestamp_obj" with
  | some (PyVal.dt t) => t
  | _ => 0

/-- `FirebaseManager.get_orders` (firebase_utils.py 107–122).
`sorted(..., reverse=True)` is stable descending order, modelled by a stable
mergesort with the flipped comparison. -/
def get_orders (db : OrdersDB) (status : Option String) : List Doc :=
  ((orders_filter db status).map order_with_meta).mergeSort
    (fun a b => decide (ob_key b ≤ ob_key a))

/-! ## Low-stock detection (app.py, line 170)

```python
low_stock_items = [item for item in items
                   if item.get('min_stock_alert')
                   and item.get('quantity', 0) <= item.get('min_stock_alert', 0)]
```

The item snapshots carry optional `quantity` and `min_stock_alert` fields;
`item.get('quantity', 0)` defaults a missing quantity to `0`. -/

structure AppItem where
  name : String
  quantity : Option Int
  min_stock_alert : Option Int
  deriving DecidableEq, Repr

/-- Python truthiness of `item.get('min_stock_alert')`: a missing field
(`None`) and the value `0` are both falsy. -/
def pyTruthy : Option Int → Bool
  | Option.none => false
  | some n => n != 0

/-- The list comprehension of app.py line 170. -/
def low_stock_items (items : List AppItem) : List AppItem :=
  items.filter (fun item =>
    pyTruthy item.min_stock_alert &&
    decide (item.quantity.getD 0 ≤ item.min_stock_alert.getD 0))

/-! ## `send_whatsapp_alert` (app.py, lines 85–95)

```python
def send_whatsapp_alert(message):
    if not twilio_client:
        st.toast("Twilio no configurado. Alerta no enviada.", icon="⚠️")
        return
    try:
        ...
        twilio_client.messages.create(...)
        st.toast("¡Alerta de WhatsApp enviada!", icon="📲")
    except Exception as e:
        st.error(f"Error al enviar alerta de Twilio: {e}", icon="🚨")
```

The Twilio client is `Option`al (missing secrets leave it `None`), and the
behaviour of `twilio_client.messages.create` on a given message is an input
(`channel`).  The result type is `Except String AlertOutcome` so that an
exception escaping to the caller would be visible as an `.error`. -/

structure TwilioConfig where
  from_number : String
  to_number : String
  deriving DecidableEq, Repr

inductive AlertOutcome where
  | notConfigured
  | sent
  | errorShown (e : String)
  deriving DecidableEq, Repr

def send_whatsapp_alert (twilio_client : Option TwilioConfig)
    (channel : String → Except String Unit) (message : String) :
    Except String AlertOutcome :=
  match twilio_client with
  | Option.none => Except.ok AlertOutcome.notConfigured
  | some _ =>
    match channel message with
    | Except.ok _ => Except.ok AlertOutcome.sent
    | Except.error e => Except.ok (AlertOutcome.errorShown e)

/-! ## The stock-transaction engine and the order lifecycle

`FirebaseManager.complete_order` (firebase_utils.py 129–139) delegates the
whole transaction to `_complete_order_atomic(transaction, self.db,
order_id)`, and app.py calls `firebase.cancel_order(...)`,
`firebase.create_order(...)` and `firebase.process_direct_sale(...)`; none
of these bodies is present under src/ (firebase_utils.py line 141: "Add
other methods like create_order, process_direct_sale, add_supplier etc.").
They are modelled from the spec, §4.3–§4.5. -/

inductive OrderStatus where
  | processing
  | completed
  | cancelled
  deriving DecidableEq, Repr

structure Ingredient where
  id : String
  name : String
  quantity : Nat
  deriving DecidableEq, Repr

structure Order where
  title : String
  price : Int
  ingredients : List Ingredient
  status : OrderStatus
  timestamp : Nat
  deriving DecidableEq, Repr

structure EngineItem where
  name : String
  quantity : Int
  min_stock_alert : Option Int
  deriving DecidableEq, Repr

structure EngineHistEntry where
  timestamp : Nat
  htype : String
  quantity_change : Int
  details : String
  deriving DecidableEq, Repr

structure EngineDoc where
  item : EngineItem
  history : List EngineHistEntry
  deriving DecidableEq, Repr

structure EngineDB where
  inventory : List (String × EngineDoc)
  orders : List (String × Order)
  deriving DecidableEq, Repr

inductive EngineErr where
  | itemNotFound (id : String)
  | insufficientStock (names : List String)
  | orderNotFound (id : String)
  | invalidState
  deriving DecidableEq, Repr

def lookupInv (inv : List (String × EngineDoc)) (id : String) : Option EngineDoc :=
  (inv.find? (fun kv => kv.1 == id)).map (fun kv => kv.2)

def lookupOrder (orders : List (String × Order)) (id : String) : Option Order :=
  (orders.find? (fun kv => kv.1 == id)).map (fun kv => kv.2)

/-- Modelled from the spec: §4.3 steps 1–2 of `applyAdjustment` — read every
referenced item and, walking the lines, collect the names of the lines whose
negative delta would drive the quantity below zero
(`delta < 0` and `current_quantity + delta < 0`); a referenced item that
does not exist fails the read step. -/
def failing_lines (inv : List (String × EngineDoc)) :
    List (String × Int) → Except EngineErr (List String)
  | [] => Except.ok []
  | (iid, d) :: rest =>
    match lookupInv inv iid with
    | Option.none => Except.error (EngineErr.itemNotFound iid)
    | some doc =>
      (failing_lines inv rest).map (fun names =>
        if d < 0 ∧ doc.item.quantity + d < 0 then doc.item.name :: names else names)

/-- The names collected by the validation pass, written as one
`filterMap` over the lines: the items an adjustment would drive negative
(used to state what `failing_lines` computes when every referenced item
exists). -/
def short_names (inv : List (String × EngineDoc)) (lines : List (String × Int)) :
    List String :=
  lines.filterMap (fun (l : String × Int) =>
    match lookupInv inv l.1 with
    | some doc =>
      if l.2 < 0 ∧ doc.item.quantity + l.2 < 0 then some doc.item.name else Option.none
    | Option.none => Option.none)

/-- Modelled from the spec: §4.3 step 3 — write `new_quantity =
current_quantity + delta` for one line and append one `HistoryEntry` with
`quantity_change = delta` to that item's ledger. -/
def apply_line (now : Nat) (etype details : String)
    (inv : List (String × EngineDoc)) (line : String × Int) :
    List (String × EngineDoc) :=
  inv.map (fun kv =>
    if kv.1 == line.1 then
      (kv.1, { item := { kv.2.item with quantity := kv.2.item.quantity + line.2 },
               history := kv.2.history ++
                 [{ timestamp := now, htype := etype,
                    quantity_change := line.2, details := details }] })
    else kv)

def apply_all_lines (now : Nat) (etype details : String)
    (inv : List (String × EngineDoc)) (lines : List (String × Int)) :
    List (String × EngineDoc) :=
  lines.foldl (apply_line now etype details) inv

/-- Modelled from the spec: §4.5 `LowStockDetector.detect` — an alert string
for each item whose `min_stock_alert` is set (not null) and whose
`quantity <= min_stock_alert`. -/
def detect (items : List EngineItem) : List String :=
  items.filterMap (fun it =>
    match it.min_stock_alert with
    | some m => if it.quantity ≤ m then some it.name else Option.none
    | Option.none => Option.none)

/-- Modelled from the spec: §4.3 `StockTransactionEngine.applyAdjustment` —
validate every line first; if any line fails, abort with
`InsufficientStockError` carrying the offending item names and no write
happens; otherwise write all updated items, append one ledger entry per
line, and return the updated items together with the low-stock alerts over
them (§4.3 steps 4–5). -/
def applyAdjustment (now : Nat) (inv : List (String × EngineDoc))
    (etype details : String) (line_deltas : List (String × Int)) :
    Except EngineErr (List (String × EngineDoc) × List String) :=
  match failing_lines inv line_deltas with
  | Except.error e => Except.error e
  | Except.ok [] =>
    let inv' := apply_all_lines now etype details inv line_deltas
    let updated := inv'.filter (fun kv => line_deltas.any (fun l => l.1 == kv.1))
    Except.ok (inv', detect (updated.map (fun kv => kv.2.item)))
  | Except.ok names => Except.error (EngineErr.insufficientStock names)

/-- Modelled from the spec: `_complete_order_atomic` (referenced by
`FirebaseManager.complete_order` but not under src/) — §4.4 `complete`:
read the order, require `status == processing` (else `InvalidStateError`),
build negative deltas from `order.ingredients`, run `applyAdjustment`, and
on success set `status = completed` and return the engine's alerts. -/
def complete_order_atomic (now : Nat) (db : EngineDB) (order_id : String) :
    Except EngineErr (EngineDB × List String) :=
  match lookupOrder db.orders order_id with
  | Option.none => Except.error (EngineErr.orderNotFound order_id)
  | some o =>
    if o.status ≠ OrderStatus.processing then Except.error EngineErr.invalidState
    else
      match applyAdjustment now db.inventory "order_completion"
          ("Pedido completado: " ++ o.title)
          (o.ingredients.map (fun ing => (ing.id, -(ing.quantity : Int)))) with
      | Except.error e => Except.error e
      | Except.ok (inv', alerts) =>
        Except.ok ({ inventory := inv',
                     orders := db.orders.map (fun kv =>
                       if kv.1 == order_id then (kv.1, { o with status := OrderStatus.completed })
                       else kv) }, alerts)

def engineErrStr : EngineErr → String
  | EngineErr.itemNotFound i => "Artículo no encontrado: " ++ i
  | EngineErr.insufficientStock ns => "Stock insuficiente: " ++ String.intercalate ", " ns
  | EngineErr.orderNotFound i => "Pedido no encontrado: " ++ i
  | EngineErr.invalidState => "InvalidStateError"

/-- `FirebaseManager.complete_order` (firebase_utils.py 129–139): runs the
transaction, and on any exception returns
`(False, f"Error en la transacción: {e}", [])`; a failed Firestore
transaction commits nothing, so the store is returned unchanged. -/
def complete_order (now : Nat) (db : EngineDB) (order_id : String) :
    EngineDB × Bool × String × List String :=
  match complete_order_atomic now db order_id with
  | Except.ok (db', alerts) => (db', true, "Pedido completado.", alerts)
  | Except.error e => (db, false, "Error en la transacción: " ++ engineErrStr e, [])

/-- Modelled from the spec: `cancel_order` (called by app.py line 518 but
not under src/) — §4.4 `cancel`: requires `status == processing` (else
`InvalidStateError`); sets `status = cancelled`; no stock movement. -/
def cancel_order_atomic (db : EngineDB) (order_id : String) :
    Except EngineErr EngineDB :=
  match lookupOrder db.orders order_id with
  | Option.none => Except.error (EngineErr.orderNotFound order_id)
  | some o =>
    if o.status ≠ OrderStatus.processing then Except.error EngineErr.invalidState
    else Except.ok { db with orders := db.orders.map (fun kv =>
      if kv.1 == order_id then (kv.1, { o with status := OrderStatus.cancelled }) else kv) }

/-- Modelled from the spec: `create_order` (called by app.py line 492 but
not under src/) — §4.4 `create`: a new order enters in state `processing`
(app.py line 491 builds the record with `'status': 'processing'`); creation
touches no stock. -/
def create_order (db : EngineDB) (oid title : String) (price : Int)
    (ingredients : List Ingredient) (now : Nat) : EngineDB × Order :=
  let o : Order := { title := title, price := price, ingredients := ingredients,
                     status := OrderStatus.processing, timestamp := now }
  ({ db with orders := db.orders ++ [(oid, o)] }, o)

/-- app.py lines 286–291: after `firebase.process_direct_sale` succeeds the
WhatsApp alerts are sent one by one; the committed store state is neither
passed to nor returned from the alerting code, it is only threaded past it. -/
def sale_alerts_step (db : EngineDB) (sale_id : String) (alerts : List String)
    (twilio_client : Option TwilioConfig) (channel : String → Except String Unit) :
    EngineDB × List (Except String AlertOutcome) :=
  (db,
   send_whatsapp_alert twilio_client channel ("💸 Venta Rápida Procesada: " ++ sale_id) ::
     alerts.map (fun a => send_whatsapp_alert twilio_client channel ("📉 ALERTA DE STOCK: " ++ a)))

/-! ## JSON values, `json.dumps` and `json.loads`

`GeminiUtils.generate_daily_report` communicates through JSON strings,
produced with `json.dumps` and consumed by the caller with `json.loads`.
Both are modelled over a JSON value type: `dumps` follows `json.dumps` with
its default separators (`", "`, `": "`), escaping the quote and the
backslash (the additional `ensure_ascii`/control-character `\uXXXX`
escaping of `json.dumps` is not modelled — no theorem depends on the exact
byte rendering of a character); `json_loads` is a recursive-descent parser
over the character list, with number literals kept as verbatim text (their
numeric value is never consumed by the embedded code). -/

inductive Json where
  | jnull
  | jbool (b : Bool)
  | jnum (lit : String)
  | jstr (s : String)
  | jarr (elems : List Json)
  | jobj (members : List (String × Json))
  deriving Repr

def escapeChars : List Char → List Char
  | [] => []
  | c :: rest =>
    if c = '"' ∨ c = '\\' then '\\' :: c :: escapeChars rest
    else c :: escapeChars rest

def dumpsString (s : String) : String :=
  "\"" ++ String.mk (escapeChars s.data) ++ "\""

mutual
def dumps : Json → String
  | Json.jnull => "null"
  | Json.jbool true => "true"
  | Json.jbool false => "false"
  | Json.jnum l => l
  | Json.jstr s => dumpsString s
  | Json.jarr xs => "[" ++ dumpsElems xs ++ "]"
  | Json.jobj kvs => "\x7b" ++ dumpsMembers kvs ++ "\x7d"

def dumpsElems : List Json → String
  | [] => ""
  | [x] => dumps x
  | x :: rest => dumps x ++ ", " ++ dumpsElems rest

def dumpsMembers : List (String × Json) → String
  | [] => ""
  | [(k, v)] => dumpsString k ++ ": " ++ dumps v
  | (k, v) :: rest => dumpsString k ++ ": " ++ dumps v ++ ", " ++ dumpsMembers rest
end

def isWsChar (c : Char) : Bool := c = ' ' || c = '\n' || c = '\t' || c = '\r'

def skipWs (s : List Char) : List Char := s.dropWhile isWsChar

def unescapeChar (c : Char) : Option Char :=
  if c = '"' then some '"'
  else if c = '\\' then some '\\'
  else if c = '/' then some '/'
  else if c = 'n' then some '\n'
  else if c = 't' then some '\t'
  else if c = 'r' then some '\r'
  else if c = 'b' then some (Char.ofNat 8)
  else if c = 'f' then some (Char.ofNat 12)
  else Option.none

/-- The body of a JSON string after its opening quote: the decoded
characters and the remainder after the closing quote (`\uXXXX` escapes are
not modelled). -/
def parseStringChars : List Char → Option (List Char × List Char)
  | [] => Option.none
  | '\\' :: c :: rest =>
    match unescapeChar c with
    | some c' => (parseStringChars rest).map (fun p => (c' :: p.1, p.2))
    | Option.none => Option.none
  | '"' :: rest => some ([], rest)
  | c :: rest => (parseStringChars rest).map (fun p => (c :: p.1, p.2))

def jsonNumChar (c : Char) : Bool :=
  c.isDigit || c = '-' || c = '+' || c = '.' || c = 'e' || c = 'E'

mutual
/-- One JSON value and the remaining input; `fuel` bounds the recursion
depth (`json_loads` supplies more fuel than any input can use). -/
def parseValue : Nat → List Char → Option (Json × List Char)
  | 0, _ => Option.none
  | f + 1, s =>
    match skipWs s with
    | '\x7b' :: rest =>
      match skipWs rest with
      | '\x7d' :: r => some (Json.jobj [], r)
      | r => (parseMembers f r).map (fun p => (Json.jobj p.1, p.2))
    | '[' :: rest =>
      match skipWs rest with
      | ']' :: r => some (Json.jarr [], r)
      | r => (parseElems f r).map (fun p => (Json.jarr p.1, p.2))
    | '"' :: rest => (parseStringChars rest).map (fun p => (Json.jstr (String.mk p.1), p.2))
    | 't' :: 'r' :: 'u' :: 'e' :: rest => some (Json.jbool true, rest)
    | 'f' :: 'a' :: 'l' :: 's' :: 'e' :: rest => some (Json.jbool false, rest)
    | 'n' :: 'u' :: 'l' :: 'l' :: rest => some (Json.jnull, rest)
    | s' =>
      let tok := s'.takeWhile jsonNumChar
      if tok.isEmpty then Option.none
      else some (Json.jnum (String.mk tok), s'.dropWhile jsonNumChar)

/-- The members of an object from after its opening brace (non-empty case). -/
def parseMembers : Nat → List Char → Option (List (String × Json) × List Char)
  | 0, _ => Option.none
  | f + 1, s =>
    match skipWs s with
    | '"' :: rest =>
      match parseStringChars rest with
      | Option.none => Option.none
      | some (key, r1) =>
        match skipWs r1 with
        | ':' :: r2 =>
          match parseValue f r2 with
          | Option.none => Option.none
          | some (v, r3) =>
            match skipWs r3 with
            | ',' :: r4 => (parseMembers f r4).map (fun p => ((String.mk key, v) :: p.1, p.2))
            | '\x7d' :: r4 => some ([(String.mk key, v)], r4)
            | _ => Option.none
        | _ => Option.none
    | _ => Option.none

/-- The elements of an array from after its opening bracket (non-empty case). -/
def parseElems : Nat → List Char → Option (List Json × List Char)
  | 0, _ => Option.none
  | f + 1, s =>
    match parseValue f s with
    | Option.none => Option.none
    | some (v, r) =>
      match skipWs r with
      | ',' :: r2 => (parseElems f r2).map (fun p => (v :: p.1, p.2))
      | ']' :: r2 => some ([v], r2)
      | _ => Option.none
end

/-- `json.loads`: parse one value and require only whitespace after it. -/
def json_loads (s : String) : Option Json :=
  match parseValue (s.length + 1) s.data with
  | some (j, rest) => if (skipWs rest).isEmpty then some j else Option.none
  | Option.none => Option.none

/-- Python `k in parsed_dict` on a parsed JSON object. -/
def Json.hasKey : Json → String → Bool
  | Json.jobj kvs, k => kvs.any (fun kv => kv.1 == k)
  | _, _ => false

def Json.isObj : Json → Bool
  | Json.jobj _ => true
  | _ => false

/-! ## `generate_daily_report` (gemini_utils.py, lines 62–167) -/

inductive PyExc where
  | nameError (missing : String)
  deriving DecidableEq, Repr

/-- The fixed no-data report of gemini_utils.py lines 70–79. -/
def no_data_report : Json :=
  Json.jobj [
    ("resumen_ejecutivo", Json.jstr "No hubo ventas completadas hoy."),
    ("observaciones_clave", Json.jarr []),
    ("recomendaciones_estrategicas", Json.jarr []),
    ("elaborado_por", Json.jobj [
      ("nombre", Json.jstr "Joseph Javier Sánchez Acuña"),
      ("cargo", Json.jstr "CEO - SAVA SOFTWARE FOR ENGINEERING")]),
    ("metadata", Json.jobj [("status", Json.jstr "no_data")])]

/-- `GeminiUtils.generate_daily_report` (gemini_utils.py 62–167).

The function first returns a `json.dumps`-ed error object when the model is
not initialized (line 66), then the fixed no-data report when `orders` is
empty (lines 68–79).  For a *non-empty* order list it builds the prompt
f-string of lines 96–105, which evaluates `datetime.now(timezone.utc)`
(line 99) — but gemini_utils.py imports only `datetime` from the `datetime`
module (line 6: `from datetime import datetime`), so the name `timezone` is
unbound and CPython raises `NameError` there.  The prompt construction sits
*outside* the `try:` block that starts at line 123, so the `NameError`
propagates to the caller and none of the response-handling code of lines
123–167 is reachable.  The sales aggregation of lines 82–93 feeds only the
never-completed prompt, so it cannot affect the result and is omitted. -/
def generate_daily_report (model_initialized : Bool) (orders : List Doc) :
    Except PyExc String :=
  if !model_initialized then
    Except.ok (dumps (Json.jobj [("error", Json.jstr "El modelo de texto no está inicializado.")]))
  else if orders.isEmpty then
    Except.ok (dumps no_data_report)
  else
    Except.error (PyExc.nameError "timezone")

/-! ## Concrete stores used by the evaluation and witness theorems -/

/-- An item created with quantity 10 and then manually updated to
quantity 4 through `save_inventory_item` (the app.py edit paths, e.g.
lines 219–221, pass the new absolute quantity). -/
def c1_db : InventoryDB :=
  save_inventory_item
    (save_inventory_item []
      [("name", PyVal.str "Mezcal Espadín"), ("quantity", PyVal.int 10)]
      "SKU-1" true Option.none 1)
    [("quantity", PyVal.int 4)] "SKU-1" false Option.none 2

def demo_itemA : EngineDoc :=
  { item := { name := "Tequila", quantity := 10, min_stock_alert := Option.none }, history := [] }

def demo_itemB : EngineDoc :=
  { item := { name := "Limón", quantity := 0, min_stock_alert := Option.none }, history := [] }

/-- Scenario C of the spec: an order over lines `A×2, B×1` with `B.quantity = 0`. -/
def c2_order : Order :=
  { title := "Pedido #1", price := 150,
    ingredients := [{ id := "A", name := "Tequila", quantity := 2 },
                    { id := "B", name := "Limón", quantity := 1 }],
    status := OrderStatus.processing, timestamp := 3 }

def c2_db : EngineDB :=
  { inventory := [("A", demo_itemA), ("B", demo_itemB)], orders := [("o1", c2_order)] }

/-- An order already in the terminal state `completed`. -/
def c4_order : Order :=
  { title := "Pedido #2", price := 80,
    ingredients := [{ id := "A", name := "Tequila", quantity := 1 }],
    status := OrderStatus.completed, timestamp := 4 }

def c4_db : EngineDB :=
  { inventory := [("A", demo_itemA)], orders := [("o2", c4_order)] }

def c7_db : InventoryDB :=
  [("sku-b", { fields := [("name", PyVal.str "beta")], history := [] }),
   ("sku-a", { fields := [("name", PyVal.str "Alpha")], history := [] })]

def c10_db : OrdersDB :=
  [("o1", [("title", PyVal.str "early"), ("timestamp", PyVal.dt 5)]),
   ("o2", [("title", PyVal.str "no-ts")]),
   ("o3", [("title", PyVal.str "late"), ("timestamp", PyVal.dt 9)]),
   ("o4", [("title", PyVal.str "bad-ts"), ("timestamp", PyVal.str "2025-01-01")])]

/-! # Theorems -/

/-! ## Dictionary lemmas -/

theorem dictGet_dictSet_self (d : Doc) (k : String) (v : PyVal) :
    dictGet (dictSet d k v) k = some v := by
  unfold dictSet dictGet
  by_cases h : d.any (fun kv => kv.1 == k)
  · simp only [h, if_true]
    induction d with
    | nil => simp at h
    | cons hd tl ih =>
      by_cases hk : hd.1 == k
      · simp [List.find?, hk]
      · simp only [List.any_cons, hk, Bool.false_or] at h
        simp only [List.map_cons, hk, if_false]
        simpa [List.find?, hk] using ih h
  · simp only [h, if_false]
    induction d with
    | nil => simp [List.find?]
    | cons hd tl ih =>
      simp only [List.any_cons, Bool.or_eq_true] at h
      push_neg at h
      have h1 : (hd.1 == k) = false := by simpa using h.1
      simp only [List.cons_append, List.find?, h1]
      exact ih (by simpa using h.2)

theorem find?_map_update (tl : Doc) (k k' : String) (v : PyVal)
    (hkk : (k == k') = false) :
    List.find? (fun kv => kv.1 == k')
        (tl.map (fun kv => if kv.1 == k then (k, v) else kv)) =
      List.find? (fun kv => kv.1 == k') tl := by
  induction tl with
  | nil => rfl
  | cons hd tlt ih =>
    by_cases hk : hd.1 == k
    · have hd' : (hd.1 == k') = false := by
        have h1 : hd.1 = k := by simpa using hk
        simpa [h1] using hkk
      simp only [List.map_cons, hk, if_true]
      rw [List.find?_cons_of_neg _ (by simpa using hkk),
          List.find?_cons_of_neg _ (by simpa using hd'), ih]
    · have hkf : (hd.1 == k) = false := by simpa using hk
      simp only [List.map_cons, hkf, Bool.false_eq_true, if_false]
      by_cases hd' : hd.1 == k'
      · rw [List.find?_cons_of_pos _ (by simpa using hd'),
            List.find?_cons_of_pos _ (by simpa using hd')]
      · rw [List.find?_cons_of_neg _ (by simpa using hd'),
            List.find?_cons_of_neg _ (by simpa using hd'), ih]

theorem find?_append_new (tl : Doc) (k k' : String) (v : PyVal)
    (hkk : (k == k') = false) :
    List.find? (fun kv => kv.1 == k') (tl ++ [(k, v)]) =
      List.find? (fun kv => kv.1 == k') tl := by
  induction tl with
  | nil =>
    simp only [List.nil_append]
    rw [List.find?_cons_of_neg _ (by simpa using hkk)]
  | cons hd tlt ih =>
    by_cases hd' : hd.1 == k'
    · rw [List.cons_append, List.find?_cons_of_pos _ (by simpa using hd'),
          List.find?_cons_of_pos _ (by simpa using hd')]
    · rw [List.cons_append, List.find?_cons_of_neg _ (by simpa using hd'),
          List.find?_cons_of_neg _ (by simpa using hd'), ih]

theorem dictGet_dictSet_ne (d : Doc) (k k' : String) (v : PyVal) (hne : k' ≠ k) :
    dictGet (dictSet d k v) k' = dictGet d k' := by
  have hkk : (k == k') = false := by simpa using fun h => hne h.symm
  unfold dictSet dictGet
  by_cases h : d.any (fun kv => kv.1 == k)
  · rw [if_pos h, find?_map_update d k k' v hkk]
  · rw [if_neg h, find?_append_new d k k' v hkk]

/-! ## Claim C1 — the ledger-consistency invariant under `save_inventory_item` -/

/-- Claim C1, evaluated at a failing input: `save_inventory_item` stores
`data.get('quantity')` — the item's *absolute* quantity — in the
`quantity_change` field of the appended history entry, so after an item is
created with quantity 10 and then updated to quantity 4 the stored quantity
is 4 while the ledger sums to 14; the claimed invariant
`quantity == sum(history.quantity_change)` is violated by the second
committed mutation. -/
theorem save_inventory_item_breaks_ledger_invariant :
    (dbLookup c1_db "SKU-1").map itemQuantity = some (some (PyVal.int 4)) ∧
    (dbLookup c1_db "SKU-1").map ledgerSum = some 14 ∧
    (14 : Int) ≠ 4 := by
  refine ⟨by decide, by decide, by decide⟩

/-! ## Claims C3 and C5 — the retry wrapper -/

/-- Claim C3, evaluated at a failing input: when the wrapped operation fails
on all 3 attempts, the wrapper's final bare `raise` (firebase_utils.py line
31) sits outside the `except` block, where CPython has no active exception,
so the caller receives `RuntimeError: No active exception to re-raise` —
not the operation's own last error, contradicting the comment on line 30
("Re-raise the last exception after all retries have failed").  The wrapper
also sleeps after the last failure, totalling 1+2+4 = 7 time units. -/
theorem firestore_retry_exhaustion_loses_last_error :
    firestore_retry (fun _ => (Except.error "ValueError" : Except String Nat)) =
      { result := Except.error PyExn.runtimeNoActiveException, calls := 3, totalSleep := 7 } ∧
    ∀ e : String, PyExn.orig e ≠ (PyExn.runtimeNoActiveException : PyExn String) := by
  exact ⟨rfl, fun e h => PyExn.noConfusion h⟩

/-- Claim C5: a wrapped operation that fails on its first two attempts and
succeeds on the third makes the wrapper return that success, after exactly
3 invocations and a total inserted sleep of `1 + 2 = 3` time units
(`initial_delay * (1 + backoff_multiplier)` with the hard-coded
`max_retries = 3`, `delay = 1`, doubling backoff). -/
theorem firestore_retry_two_failures_then_success {E A : Type}
    (op : Nat → Except E A) (e0 e1 : E) (v : A)
    (h0 : op 0 = Except.error e0) (h1 : op 1 = Except.error e1)
    (h2 : op 2 = Except.ok v) :
    firestore_retry op = { result := Except.ok v, calls := 3, totalSleep := 3 } := by
  simp only [firestore_retry, firestore_retry_loop, h0, h1, h2]

/-- Claim C5, witnessed at a concrete operation that fails twice with a
transient fault and then succeeds. -/
theorem firestore_retry_two_failures_then_success_witness :
    firestore_retry
        (fun n => if n < 2 then (Except.error "ServiceUnavailable" : Except String Nat)
                  else Except.ok 7) =
      { result := Except.ok 7, calls := 3, totalSleep := 3 } :=
  firestore_retry_two_failures_then_success _ "ServiceUnavailable" "ServiceUnavailable" 7
    rfl rfl rfl

/-! ## Claim C6 — the low-stock detector -/

/-- Claim C6, refuted at a concrete snapshot: an item whose
`min_stock_alert` is *set* to `0` with `quantity = 0` satisfies the
claimed alert condition (threshold set and `quantity <= min_stock_alert`),
yet app.py line 170 tests `item.get('min_stock_alert')` for truthiness, so
the value `0` disables the alert and the detector returns no alert. -/
theorem low_stock_zero_threshold_missed :
    low_stock_items
        [{ name := "Mezcal", quantity := some 0, min_stock_alert := some 0 }] = [] ∧
    ({ name := "Mezcal", quantity := some 0, min_stock_alert := some 0 } :
        AppItem).min_stock_alert ≠ Option.none ∧
    ({ name := "Mezcal", quantity := some 0, min_stock_alert := some 0 } :
        AppItem).quantity.getD 0 ≤
      ({ name := "Mezcal", quantity := some 0, min_stock_alert := some 0 } :
        AppItem).min_stock_alert.getD 0 := by
  refine ⟨by decide, by decide, by decide⟩

/-- Claim C6 as amended: the detector flags an item iff its
`min_stock_alert` is set to a *non-zero* value `m` (Python truthiness) and
`quantity <= m` (a missing quantity defaulting to 0); being a pure
function of the snapshot, repeated calls agree. -/
theorem low_stock_items_mem_iff (items : List AppItem) (item : AppItem) :
    item ∈ low_stock_items items ↔
      item ∈ items ∧
        ∃ m : Int, item.min_stock_alert = some m ∧ m ≠ 0 ∧
          item.quantity.getD 0 ≤ m := by
  unfold low_stock_items
  rw [List.mem_filter]
  cases hm : item.min_stock_alert with
  | none => simp [pyTruthy, hm]
  | some m => simp [pyTruthy, hm, and_assoc]

/-! ## Claim C8 — the daily-report generator -/

/-- Claim C8, evaluated: for the *empty* order list (and for an
uninitialized model) `generate_daily_report` does return a string that
parses as a JSON object of the required shape — but for any non-empty
order list the function raises `NameError` instead of returning a string,
because the prompt f-string (gemini_utils.py line 99) evaluates
`timezone.utc` while the module imports only `datetime` from `datetime`
(line 6), and the prompt is built outside the `try:` block. -/
theorem generate_daily_report_eval :
    generate_daily_report true [[("price", PyVal.int 120)]] =
      Except.error (PyExc.nameError "timezone") ∧
    generate_daily_report true [] = Except.ok (dumps no_data_report) ∧
    json_loads (dumps no_data_report) = some no_data_report ∧
    (no_data_report.isObj && no_data_report.hasKey "resumen_ejecutivo" &&
     no_data_report.hasKey "observaciones_clave" &&
     no_data_report.hasKey "recomendaciones_estrategicas" &&
     no_data_report.hasKey "elaborado_por") = true ∧
    generate_daily_report false [] =
      Except.ok (dumps (Json.jobj
        [("error", Json.jstr "El modelo de texto no está inicializado.")])) ∧
    json_loads (dumps (Json.jobj
        [("error", Json.jstr "El modelo de texto no está inicializado.")])) =
      some (Json.jobj [("error", Json.jstr "El modelo de texto no está inicializado.")]) ∧
    ((Json.jobj [("error", Json.jstr "El modelo de texto no está inicializado.")]).isObj &&
     (Json.jobj [("error", Json.jstr "El modelo de texto no está inicializado.")]).hasKey
        "error") = true := by
  exact ⟨rfl, rfl, rfl, rfl, rfl, rfl, rfl⟩

/-! ## Claim C9 — alert delivery is isolated from the stock transaction -/

theorem send_whatsapp_alert_ok (twilio_client : Option TwilioConfig)
    (channel : String → Except String Unit) (message : String) :
    ∃ o, send_whatsapp_alert twilio_client channel message = Except.ok o := by
  cases twilio_client with
  | none => exact ⟨AlertOutcome.notConfigured, rfl⟩
  | some cfg =>
    unfold send_whatsapp_alert
    cases channel message with
    | ok u => exact ⟨AlertOutcome.sent, rfl⟩
    | error e => exact ⟨AlertOutcome.errorShown e, rfl⟩

/-- Claim C9: with no configured Twilio client the alert call is a silent
no-op; with any client and any channel behaviour (including failure) the
call returns normally — no exception reaches the caller — and the alert
phase after a committed direct sale leaves the committed store state
untouched. -/
theorem whatsapp_alert_failure_isolated (twilio_client : Option TwilioConfig)
    (channel : String → Except String Unit) (message : String)
    (db : EngineDB) (sale_id : String) (alerts : List String) :
    send_whatsapp_alert Option.none channel message =
      Except.ok AlertOutcome.notConfigured ∧
    (∃ o, send_whatsapp_alert twilio_client channel message = Except.ok o) ∧
    (sale_alerts_step db sale_id alerts twilio_client channel).1 = db ∧
    ∀ r ∈ (sale_alerts_step db sale_id alerts twilio_client channel).2,
      ∃ o, r = Except.ok o := by
  refine ⟨rfl, send_whatsapp_alert_ok _ _ _, rfl, ?_⟩
  intro r hr
  simp only [sale_alerts_step, List.mem_cons, List.mem_map] at hr
  rcases hr with h | ⟨a, _, h⟩
  · exact h ▸ send_whatsapp_alert_ok _ _ _
  · exact h ▸ send_whatsapp_alert_ok _ _ _

/-! ## Claim C7 — listing the inventory -/

/-- Claim C7: `get_all_inventory_items` returns a permutation of the
stored documents, sorted by the case-insensitive name key, and every
returned record carries its store key in the `id` field.  The hypothesis
restricts to stores whose `name` fields, when present, hold strings — the
domain on which the total model of `x.get('name', '').lower()` agrees with
CPython (which raises `AttributeError` on a non-string name). -/
theorem get_all_inventory_items_spec (db : InventoryDB)
    (h : wellFormedNames db = true) :
    (get_all_inventory_items db).Perm (db.map attach_id) ∧
    (get_all_inventory_items db).Pairwise (fun a b => pyNameKey a ≤ pyNameKey b) ∧
    ∀ x ∈ get_all_inventory_items db,
      ∃ kv ∈ db, x = attach_id kv ∧ dictGet x "id" = some (PyVal.str kv.1) := by
  refine ⟨List.mergeSort_perm _ _, ?_, ?_⟩
  · have hs : ((db.map attach_id).mergeSort
        (fun a b => decide (pyNameKey a ≤ pyNameKey b))).Pairwise
        (fun a b => decide (pyNameKey a ≤ pyNameKey b) = true) := by
      apply List.sorted_mergeSort
      · intro a b c hab hbc
        simp only [decide_eq_true_eq] at hab hbc ⊢
        exact le_trans hab hbc
      · intro a b
        simpa using le_total (pyNameKey a) (pyNameKey b)
    exact hs.imp (fun hab => by simpa using hab)
  · intro x hx
    have hx' : x ∈ db.map attach_id := List.mem_mergeSort.mp hx
    obtain ⟨kv, hkv, rfl⟩ := List.mem_map.mp hx'
    exact ⟨kv, hkv, rfl, dictGet_dictSet_self _ _ _⟩

/-- Claim C7, witnessed at a concrete two-item store whose names are out
of order and differ in case. -/
theorem get_all_inventory_items_spec_witness :
    (get_all_inventory_items c7_db).Perm (c7_db.map attach_id) ∧
    (get_all_inventory_items c7_db).Pairwise (fun a b => pyNameKey a ≤ pyNameKey b) ∧
    ∀ x ∈ get_all_inventory_items c7_db,
      ∃ kv ∈ c7_db, x = attach_id kv ∧ dictGet x "id" = some (PyVal.str kv.1) :=
  get_all_inventory_items_spec c7_db (by decide)

/-! ## Claim C10 — listing the orders -/

theorem ob_key_order_with_meta (kv : String × Doc) :
    ob_key (order_with_meta kv) = ts_key kv.2 := by
  unfold ob_key order_with_meta
  rw [dictGet_dictSet_self]

theorem timestamp_order_with_meta (kv : String × Doc) :
    dictGet (order_with_meta kv) "timestamp" = dictGet kv.2 "timestamp" := by
  unfold order_with_meta
  rw [dictGet_dictSet_ne _ _ _ _ (by decide), dictGet_dictSet_ne _ _ _ _ (by decide)]

/-- Claim C10: `get_orders` returns the (status-filtered) orders sorted by
`timestamp_obj` in descending order; an order whose `timestamp` field is
missing or not a `datetime` gets the minimum key (`datetime.min`, tick 0)
and therefore everything following such an order in the output also sits
at the minimum key — the defaulted orders sort last. -/
theorem get_orders_sorted_desc (db : OrdersDB) (status : Option String) :
    (get_orders db status).Perm ((orders_filter db status).map order_with_meta) ∧
    (get_orders db status).Pairwise (fun a b => ob_key b ≤ ob_key a) ∧
    (∀ x ∈ get_orders db status,
      (∀ t, dictGet x "timestamp" ≠ some (PyVal.dt t)) → ob_key x = 0) ∧
    (get_orders db status).Pairwise
      (fun a b => (∀ t, dictGet a "timestamp" ≠ some (PyVal.dt t)) → ob_key b = 0) := by
  have hpair : (get_orders db status).Pairwise (fun a b => ob_key b ≤ ob_key a) := by
    have hs : (((orders_filter db status).map order_with_meta).mergeSort
        (fun a b => decide (ob_key b ≤ ob_key a))).Pairwise
        (fun a b => decide (ob_key b ≤ ob_key a) = true) := by
      apply List.sorted_mergeSort
      · intro a b c hab hbc
        simp only [decide_eq_true_eq] at hab hbc ⊢
        exact le_trans hbc hab
      · intro a b
        simpa using le_total (ob_key b) (ob_key a)
    exact hs.imp (fun hab => by simpa using hab)
  have hbad : ∀ x ∈ get_orders db status,
      (∀ t, dictGet x "timestamp" ≠ some (PyVal.dt t)) → ob_key x = 0 := by
    intro x hx hbadx
    have hx' : x ∈ (orders_filter db status).map order_with_meta :=
      List.mem_mergeSort.mp hx
    obtain ⟨kv, _, rfl⟩ := List.mem_map.mp hx'
    rw [ob_key_order_with_meta]
    unfold ts_key
    cases hts : dictGet kv.2 "timestamp" with
    | none => rfl
    | some v =>
      cases v with
      | dt t =>
        exact absurd (by rw [timestamp_order_with_meta, hts]) (hbadx t)
      | int n => rfl
      | str s => rfl
      | vnone => rfl
  refine ⟨List.mergeSort_perm _ _, hpair, hbad, ?_⟩
  exact hpair.imp_of_mem (fun hxa hxb hle hb => Nat.le_zero.mp (hbad _ hxa hb ▸ hle))

/-! ## Claims C2 and C4 — the order lifecycle and its atomicity -/

theorem failing_lines_eq_of_present (inv : List (String × EngineDoc))
    (lines : List (String × Int))
    (h : ∀ l ∈ lines, (lookupInv inv l.1).isSome) :
    failing_lines inv lines = Except.ok (short_names inv lines) := by
  induction lines with
  | nil => rfl
  | cons hd tl ih =>
    obtain ⟨iid, dl⟩ := hd
    obtain ⟨d, hlook⟩ := Option.isSome_iff_exists.mp (h (iid, dl) (by simp))
    have htl : ∀ l ∈ tl, (lookupInv inv l.1).isSome := fun l hl => h l (by simp [hl])
    rw [failing_lines, hlook, ih htl]
    unfold short_names
    rw [List.filterMap_cons]
    simp only [hlook]
    by_cases hcond : dl < 0 ∧ d.item.quantity + dl < 0
    · simp [hcond, Except.map]
    · simp [hcond, Except.map]

/-- Claim C2: completing an order in which at least one line would drive
its item's quantity below zero aborts the whole operation — the returned
store state is the input state (so no quantity changed and no history
entry was appended for any line), the result flag is `False`, and no
alerts are produced. -/
theorem complete_order_all_or_nothing (now : Nat) (db : EngineDB) (oid : String)
    (o : Order)
    (horder : lookupOrder db.orders oid = some o)
    (hproc : o.status = OrderStatus.processing)
    (hpresent : ∀ ing ∈ o.ingredients, (lookupInv db.inventory ing.id).isSome)
    (hshort : ∃ ing ∈ o.ingredients, ∃ d, lookupInv db.inventory ing.id = some d ∧
        0 < ing.quantity ∧ d.item.quantity < (ing.quantity : Int)) :
    (complete_order now db oid).1 = db ∧
    (complete_order now db oid).2.1 = false ∧
    (complete_order now db oid).2.2.2 = ([] : List String) := by
  have hlines : ∀ l ∈ o.ingredients.map (fun ing => (ing.id, -(ing.quantity : Int))),
      (lookupInv db.inventory l.1).isSome := by
    intro l hl
    obtain ⟨ing, hing, rfl⟩ := List.mem_map.mp hl
    exact hpresent ing hing
  have hfl := failing_lines_eq_of_present db.inventory _ hlines
  obtain ⟨ing, hing, d, hld, hqty, hlt⟩ := hshort
  have hmem : d.item.name ∈ short_names db.inventory
      (o.ingredients.map (fun ing => (ing.id, -(ing.quantity : Int)))) := by
    unfold short_names
    refine List.mem_filterMap.mpr
      ⟨(ing.id, -(ing.quantity : Int)), List.mem_map.mpr ⟨ing, hing, rfl⟩, ?_⟩
    simp only [hld]
    have hneg : -(ing.quantity : Int) < 0 := by omega
    have hsum : d.item.quantity + -(ing.quantity : Int) < 0 := by omega
    rw [if_pos ⟨hneg, hsum⟩]
  have hne : short_names db.inventory
      (o.ingredients.map (fun ing => (ing.id, -(ing.quantity : Int)))) ≠ [] := by
    intro hemp
    rw [hemp] at hmem
    exact List.not_mem_nil _ hmem
  have hatomic : ∃ ns, complete_order_atomic now db oid =
      Except.error (EngineErr.insufficientStock ns) := by
    unfold complete_order_atomic applyAdjustment
    simp only [horder]
    rw [if_neg (fun hcon => hcon hproc), hfl]
    rcases hsn : short_names db.inventory
        (o.ingredients.map (fun ing => (ing.id, -(ing.quantity : Int)))) with _ | ⟨a, rest⟩
    · exact absurd hsn hne
    · rw [hsn]
      exact ⟨a :: rest, rfl⟩
  obtain ⟨ns, hatomic⟩ := hatomic
  unfold complete_order
  rw [hatomic]
  exact ⟨rfl, rfl, rfl⟩

/-- Claim C2, witnessed at Scenario C of the spec: an order over lines
`A×2, B×1` with `B.quantity = 0`; completing it changes nothing. -/
theorem complete_order_all_or_nothing_witness :
    (complete_order 5 c2_db "o1").1 = c2_db ∧
    (complete_order 5 c2_db "o1").2.1 = false ∧
    (complete_order 5 c2_db "o1").2.2.2 = ([] : List String) :=
  complete_order_all_or_nothing 5 c2_db "o1" c2_order rfl rfl (by decide)
    ⟨{ id := "B", name := "Limón", quantity := 1 }, by decide, demo_itemB, rfl,
      by decide, by decide⟩

/-- Claim C4: an order is created in state `processing`; `complete` and
`cancel` on an order whose status is not `processing` fail with
`InvalidStateError`, the `complete_order` wrapper reports the failure with
the store unchanged, and since `completed` and `cancelled` are exactly the
non-`processing` states, there is no transition out of them. -/
theorem order_lifecycle_one_way (now : Nat) (db : EngineDB) (oid : String)
    (o : Order)
    (horder : lookupOrder db.orders oid = some o)
    (hnot : o.status ≠ OrderStatus.processing) :
    complete_order_atomic now db oid = Except.error EngineErr.invalidState ∧
    cancel_order_atomic db oid = Except.error EngineErr.invalidState ∧
    complete_order now db oid =
      (db, false, "Error en la transacción: InvalidStateError", ([] : List String)) ∧
    ∀ db' oid' title price ings now',
      ((create_order db' oid' title price ings now').2).status =
        OrderStatus.processing := by
  have hc : complete_order_atomic now db oid = Except.error EngineErr.invalidState := by
    unfold complete_order_atomic
    simp only [horder]
    rw [if_pos hnot]
  refine ⟨hc, ?_, ?_, ?_⟩
  · unfold cancel_order_atomic
    simp only [horder]
    rw [if_pos hnot]
  · unfold complete_order
    rw [hc]
    rfl
  · intro db' oid' title price ings now'
    rfl

/-- Claim C4, witnessed at a concrete store holding an order already in
the terminal state `completed`. -/
theorem order_lifecycle_one_way_witness :
    complete_order_atomic 6 c4_db "o2" = Except.error EngineErr.invalidState ∧
    cancel_order_atomic c4_db "o2" = Except.error EngineErr.invalidState ∧
    complete_order 6 c4_db "o2" =
      (c4_db, false, "Error en la transacción: InvalidStateError", ([] : List String)) ∧
    ∀ db' oid' title price ings now',
      ((create_order db' oid' title price ings now').2).status =
        OrderStatus.processing :=
  order_lifecycle_one_way 6 c4_db "o2" c4_order rfl (by decide)

end ChingonInventario
